import Mathlib

/-!
Verification of the py-mjpeg streaming client (src/mjpeg).

This file gives a shallow embedding of the frame protocol parser
(src/mjpeg/__init__.py), the threaded client (src/mjpeg/client.py) and the
asynchronous client (src/mjpeg/aioclient.py), and proves or refutes the
frozen claims about them.  Machine time is modelled as a natural number
supplied by the environment, byte streams as lists of byte values together
with a schedule describing how many bytes the transport yields per read
call, and Python exceptions as an explicit error type.
-/

/-- Python exceptions that the modelled code can raise.  ProtoError and
EOFError are raised explicitly by the source; TypeError, KeyError and
ValueError arise from Python runtime semantics (calling a bool, a missing
mapping key, an out-of-range byte value). -/
inductive PyErr where
  | protoError (msg : String)
  | eofError (msg : String)
  | typeError
  | keyError
  | valueError
deriving DecidableEq, Repr

deriving instance DecidableEq for Except

/-- The header set produced by read_headers: a mapping from lower-cased
header name to the ordered list of that header field values.  It is
modelled as the arrival-ordered list of (name, value) pairs; the list of
values of a name is the ordered sublist of its pairs args, exactly the
dict-of-lists the Python code builds. -/
abbrev Headers := List (String × String)

/-- headers.get(name)[0] on the dict-of-lists: the first value stored for
the given (lower-cased) name, or none when the name is absent. -/
def hget1 (h : Headers) (name : String) : Option String :=
  (h.find? (fun p => p.1 = name)).map (fun p => p.2)

/-- All values stored for a name, in arrival order (the full list that
headers.get(name) returns). -/
def hgetAll (h : Headers) (name : String) : List String :=
  (h.filter (fun p => p.1 = name)).map (fun p => p.2)

/-- str.strip() on a character list: drop whitespace from both ends. -/
def pyStripWs (cs : List Char) : List Char :=
  ((cs.dropWhile Char.isWhitespace).reverse.dropWhile Char.isWhitespace).reverse

/-- str.strip() as used by the source for header values and int() input. -/
def pyStrip (s : String) : String :=
  String.mk (pyStripWs s.data)

/-- Python int() digit run, after the first digit: digits with single
underscores allowed between digits (PEP 515). -/
def pyDigitsAfter : List Char → Bool
  | [] => true
  | c :: rest =>
    if c.isDigit then pyDigitsAfter rest
    else if c = '_' then
      match rest with
      | d :: rest2 => d.isDigit && pyDigitsAfter rest2
      | [] => false
    else false

/-- A nonempty digit run as accepted by Python int(): a digit followed by
digits or single underscores between digits. -/
def pyDigitsOk : List Char → Bool
  | [] => false
  | c :: rest => c.isDigit && pyDigitsAfter rest

/-- Numeric value of a digit run (underscores ignored). -/
def digitsVal (cs : List Char) : Nat :=
  (cs.filter (fun c => c ≠ '_')).foldl (fun n c => n * 10 + (c.toNat - 48)) 0

/-- Model of Python int(str): surrounding whitespace is stripped, an
optional single sign is allowed, then a nonempty digit run; returns none
when int() would raise ValueError.  Note that Python accepts a signed
value, so "-5" parses to -5. -/
def pyInt? (s : String) : Option Int :=
  let cs := pyStripWs s.data
  match cs with
  | '+' :: rest => if pyDigitsOk rest then some (digitsVal rest) else none
  | '-' :: rest => if pyDigitsOk rest then some (-(digitsVal rest : Int)) else none
  | _ => if pyDigitsOk cs then some (digitsVal cs) else none

/-- mjpeg.parse_content_length (src/mjpeg/__init__.py lines 118-125):
int(headers.get("content-length", None)[0]) with ValueError and TypeError
converted to ProtoError.  A missing header gives None[0], a TypeError; an
unparsable first value gives ValueError; both are caught.  A value that
int() accepts, including a negative one, is returned unchanged. -/
def parse_content_length (headers : Headers) : Except PyErr Int :=
  match hget1 headers "content-length" with
  | none => .error (.protoError "Invalid or missing Content-Length")
  | some v =>
    match pyInt? v with
    | none => .error (.protoError "Invalid or missing Content-Length")
    | some n => .ok n

/-- ctype.find(";") / ctype[:i]: the prefix of the string before the first
semicolon (the whole string when there is none). -/
def stripParams (ctype : String) : String :=
  String.mk (ctype.data.takeWhile (fun c => c ≠ ';'))

/-- mjpeg.check_content_type (src/mjpeg/__init__.py lines 128-141): the
first content-type value must be present, and equal the expected type
after the ;-delimited parameter suffix is removed. -/
def check_content_type (headers : Headers) (type_ : String) : Except PyErr Bool :=
  match hget1 headers "content-type" with
  | none => .error (.protoError "Missing Content-Type header")
  | some ctype0 =>
    let ctype := stripParams ctype0
    if ctype ≠ type_ then .error (.protoError ("Wrong Content-Type: " ++ ctype))
    else .ok true

/-- A readable binary stream: the bytes remaining in it, plus the schedule
of chunk sizes the transport yields on successive read calls (a read for n
bytes returns min n (head of the schedule) bytes, capped by the data left;
an exhausted schedule delivers everything asked for).  The schedule models
the fact that a socket read may return fewer bytes than requested. -/
structure ByteStream where
  data : List Nat
  sched : List Nat
deriving DecidableEq, Repr

/-- One stream.read(n) call: returns at most n bytes, as limited by the
transport schedule and by the data remaining. -/
def sread (s : ByteStream) (n : Nat) : List Nat × ByteStream :=
  let want := min n (s.sched.headD n)
  (s.data.take want, ⟨s.data.drop want, s.sched.tail⟩)

/-- Loop body of mjpeg.skip_data, with explicit fuel for structural
recursion: while left is nonzero, read up to left bytes; a zero-length
read with bytes still owed raises ProtoError.  The fuel never runs out
when it starts at or above left, because every recursive step consumes at
least one byte. -/
def skip_data_go : Nat → ByteStream → Nat → Except PyErr ByteStream
  | _, s, 0 => .ok s
  | 0, s, _ + 1 => .ok s
  | fuel + 1, s, left + 1 =>
    if (sread s (left + 1)).1.length = 0 then
      .error (.protoError "Not enough data in chunk")
    else skip_data_go fuel (sread s (left + 1)).2 (left + 1 - (sread s (left + 1)).1.length)

/-- mjpeg.skip_data (src/mjpeg/__init__.py lines 66-71): read and discard
exactly the given number of bytes from the stream. -/
def skip_data (s : ByteStream) (left : Nat) : Except PyErr ByteStream :=
  skip_data_go left s left

/-- Read loop of mjpeg.read_data: repeatedly readinto the remaining slice
of the destination view until it is full, collecting the bytes obtained;
a zero-length read with the view still nonempty raises ProtoError. -/
def read_data_go : Nat → ByteStream → Nat → List Nat → Except PyErr (List Nat × ByteStream)
  | _, s, 0, acc => .ok (acc, s)
  | 0, s, _ + 1, acc => .ok (acc, s)
  | fuel + 1, s, want + 1, acc =>
    if (sread s (want + 1)).1.length = 0 then
      .error (.protoError "Not enough data in chunk")
    else
      read_data_go fuel (sread s (want + 1)).2 (want + 1 - (sread s (want + 1)).1.length)
        (acc ++ (sread s (want + 1)).1)

/-- Length of the memoryview slice buf[:stop] for a buffer of bufLen
bytes: Python clamps, and a negative stop counts from the end. -/
def pySliceLen (bufLen : Nat) (stop : Int) : Nat :=
  if stop < 0 then ((bufLen : Int) + stop).toNat else min stop.toNat bufLen

/-- mjpeg.read_data (src/mjpeg/__init__.py lines 79-93): fill the first
length bytes of buf from the stream (retrying partial reads) and return
the updated buffer contents together with the remaining stream. -/
def read_data (buf : List Nat) (s : ByteStream) (length : Int) :
    Except PyErr (List Nat × ByteStream) :=
  let toRead := pySliceLen buf.length length
  match read_data_go toRead s toRead [] with
  | .error e => .error e
  | .ok (got, s2) => .ok (got ++ buf.drop toRead, s2)

/-- One parsed "name: value" header line: the line must contain a colon;
the name is the lower-cased part before it, the value the stripped part
after it (source lines 52-57). -/
def splitHeaderLine (l : String) : Option (String × String) :=
  if l.data.contains ':' then
    some (String.mk ((l.data.takeWhile (fun c => c ≠ ':')).map Char.toLower),
      String.mk (pyStripWs ((l.data.dropWhile (fun c => c ≠ ':')).tail)))
  else none

/-- Header lines after the boundary: read lines until an empty line (end
of the header section); a line without a colon is a ProtoError.  An
exhausted stream reads as the empty line. -/
def read_header_block : List String → Headers → Except PyErr (Headers × List String)
  | [], acc => .ok (acc, [])
  | l :: rest, acc =>
    if l = "" then .ok (acc, rest)
    else
      match splitHeaderLine l with
      | none => .error (.protoError ("Invalid header line: " ++ l))
      | some nb => read_header_block rest (acc ++ [nb])

/-- mjpeg.read_headers (src/mjpeg/__init__.py lines 29-63): skip one
optional leading empty line, require the boundary line, then the header
block. -/
def read_headers (lines : List String) (boundary : String) :
    Except PyErr (Headers × List String) :=
  let first : String × List String :=
    match lines with
    | [] => ("", [])
    | x :: xs => (x, xs)
  let second : String × List String :=
    if first.1 = "" then
      match first.2 with
      | [] => ("", [])
      | x :: xs => (x, xs)
    else first
  if second.1 ≠ boundary then .error (.protoError "Boundary string expected, but not found")
  else read_header_block second.2 []

/-- mjpeg.read_mjpeg_frame after its header-reading call, i.e. source
lines 186-201 of src/mjpeg/__init__.py with hdr the header set that
read_headers returned: parse Content-Length (0 means clean end of
stream), reject an oversize frame when skip_big is off, check the
Content-Type, then read the body into the buffer when it fits and
otherwise skip it.  now is the wall-clock timestamp time() returns; buf
is None exactly when the caller passed no buffer. -/
def read_mjpeg_frame_body (hdr : Headers) (s : ByteStream) (buf : Option (List Nat))
    (length : Nat) (skip_big : Bool) (now : Nat) :
    Except PyErr ((Nat × Int) × Option (List Nat) × ByteStream) :=
  match parse_content_length hdr with
  | .error e => .error e
  | .ok clen =>
    if clen = 0 then .error (.eofError "End of stream reached")
    else if clen > (length : Int) ∧ skip_big = false then
      .error (.protoError ("Received chunk too big: " ++ toString clen))
    else
      match check_content_type hdr "image/jpeg" with
      | .error e => .error e
      | .ok _ =>
        if (length : Int) ≥ clen then
          match buf with
          | none => .error .typeError
          | some b =>
            match read_data b s clen with
            | .error e => .error e
            | .ok (b2, s2) => .ok ((now, clen), some b2, s2)
        else
          match skip_data s clen.toNat with
          | .error e => .error e
          | .ok s2 => .ok ((now, clen), buf, s2)

/-- mjpeg.read_mjpeg_frame (src/mjpeg/__init__.py lines 163-201): read
the header section from the stream lines, then process the frame body. -/
def read_mjpeg_frame (lines : List String) (boundary : String) (s : ByteStream)
    (buf : Option (List Nat)) (length : Nat) (skip_big : Bool) (now : Nat) :
    Except PyErr ((Nat × Int) × Option (List Nat) × ByteStream) :=
  match read_headers lines boundary with
  | .error e => .error e
  | .ok (hdr, _) => read_mjpeg_frame_body hdr s buf length skip_big now

/-- Python slice assignment buf[i:j] = data on a bytearray: the slice
bounds are clamped to the buffer, an empty or inverted slice inserts at
the start index, and the replacement may change the length. -/
def pySetSlice (b : List Nat) (i j : Nat) (data : List Nat) : List Nat :=
  let start := min i b.length
  let stop := max (min j b.length) start
  b.take start ++ data ++ b.drop stop

/-- The chunk-size halving loop at the top of mjpeg.aread_data: while
chunk_size fits below length (and is not yet 1) halve it.  Fuel equal to
the initial chunk size bounds the halvings; the source loop would not
terminate from chunk_size 0, which its caller never produces. -/
def halve_go : Nat → Nat → Nat → Nat
  | 0, cs, _ => cs
  | fuel + 1, cs, length => if 2 ≤ cs ∧ cs ≤ length then halve_go fuel (cs / 2) length else cs

/-- Read loop of mjpeg.aread_data (src/mjpeg/__init__.py lines 102-115):
read chunks of at most chunk_size bytes, writing each chunk with the
slice assignment buf[i:n] = data exactly as the source does (n is the
chunk length, not i + n), raising ProtoError on an empty read with bytes
remaining, and TypeError when buf is None and a write is attempted. -/
def aread_data_go : Nat → ByteStream → Option (List Nat) → Nat → Nat → Nat →
    Except PyErr (Option (List Nat) × ByteStream)
  | _, s, buf, _, 0, _ => .ok (buf, s)
  | 0, s, buf, _, _ + 1, _ => .ok (buf, s)
  | fuel + 1, s, buf, i, remaining + 1, chunk_size =>
    let cs := if remaining + 1 < chunk_size then remaining + 1 else chunk_size
    let n := (sread s cs).1.length
    if n = 0 then .error (.protoError "Not enough data in chunk")
    else
      match buf with
      | none => .error .typeError
      | some b =>
        aread_data_go fuel (sread s cs).2 (some (pySetSlice b i n (sread s cs).1))
          (i + n) (remaining + 1 - n) cs

/-- mjpeg.aread_data (src/mjpeg/__init__.py lines 96-115). -/
def aread_data (buf : Option (List Nat)) (s : ByteStream) (length : Nat) :
    Except PyErr (Option (List Nat) × ByteStream) :=
  let cs := if 8192 ≤ length then halve_go 8192 8192 length else 8192
  aread_data_go length s buf 0 length cs

/-- mjpeg.askip_data (src/mjpeg/__init__.py lines 74-76): allocates
bytearray(range(left)) as scratch and reads into it; range values of 256
or more are not valid bytes, so left above 256 raises ValueError before
anything is read. -/
def askip_data (s : ByteStream) (left : Nat) : Except PyErr ByteStream :=
  if left ≤ 256 then
    match aread_data (some (List.range left)) s left with
    | .error e => .error e
    | .ok (_, s2) => .ok s2
  else .error .valueError

/-- mjpeg.aread_mjpeg_frame (src/mjpeg/__init__.py lines 203-259): the
asynchronous frame reader.  clen is stream._length, the Content-Length
that aiohttp already parsed for the multipart part; hdr models the part
headers (aiohttp stores them case-insensitively, modelled by lower-cased
names, and a missing key raises KeyError).  Unlike the threaded reader it
compares the raw Content-Type value, with no parameter stripping. -/
def aread_mjpeg_frame (clen : Int) (hdr : Headers) (s : ByteStream)
    (buf : Option (List Nat)) (length : Nat) (skip_big : Bool) (now : Nat) :
    Except PyErr ((Nat × Int) × Option (List Nat) × ByteStream) :=
  if clen = 0 then .error (.eofError "End of stream reached")
  else if clen > (length : Int) ∧ skip_big = false then
    .error (.protoError ("Received chunk too big: " ++ toString clen))
  else
    match hget1 hdr "content-type" with
    | none => .error .keyError
    | some ctype =>
      if ctype ≠ "image/jpeg" then .error (.protoError ("Wrong Content-Type: " ++ ctype))
      else if (length : Int) ≥ clen then
        match aread_data buf s clen.toNat with
        | .error e => .error e
        | .ok (b2, s2) => .ok ((now, clen), b2, s2)
      else
        match askip_data s clen.toNat with
        | .error e => .error e
        | .ok s2 => .ok ((now, clen), buf, s2)

/-- mjpeg.client.Buffer.  The constructor (src/mjpeg/client.py lines
32-37) sets length, used, timestamp, the documented sequence attribute,
and the data bytes.  The seq field models the distinct instance attribute
that process_stream later creates with buf.seq = seq; it does not exist
until that assignment, hence an Option. -/
structure Buffer where
  length : Nat
  used : Int
  timestamp : Nat
  sequence : Nat
  seq : Option Nat
  data : List Nat
deriving DecidableEq, Repr

/-- Buffer.__init__(length). -/
def Buffer.init (length : Nat) : Buffer :=
  { length := length, used := 0, timestamp := 0, sequence := 0, seq := none,
    data := List.replicate length 0 }

/-- The fps-estimator fields of the client: self.fps, self._frame and
self._prev (self._start and self._cur only mirror readings of the clock
and carry no further state). -/
structure FpsState where
  fps : Nat
  frame : Nat
  prev : Nat
deriving DecidableEq, Repr

/-- MJPEGClient._update_fps (src/mjpeg/client.py lines 94-100), with now
the value of int(time()): count the frame; once the current time passes
prev + log_interval, publish frame count divided by log_interval (int()
truncation on a nonnegative quotient), zero the counter, and set prev to
the current time. -/
def update_fps (log_interval : Nat) (st : FpsState) (now : Nat) : FpsState :=
  let f := st.frame + 1
  if st.prev + log_interval ≤ now then
    { fps := f / log_interval, frame := 0, prev := now }
  else { st with frame := f }

/-- The mutable state of MJPEGClient that process_stream touches:
_incoming (a deque, appended and popped on the right), _outgoing (a FIFO
put on the right), the statistics counters, the fps fields, and the stop
instance attribute (none while only the class method stop exists, some b
once an assignment self.stop = b has shadowed it). -/
structure CState where
  incoming : List Buffer
  outgoing : List Buffer
  overruns : Nat
  in_overrun : Bool
  frames : Nat
  discarded_frames : Nat
  log_interval : Nat
  fpsState : FpsState
  stop : Option Bool
deriving DecidableEq, Repr

/-- A fresh client around one stream: counters zero as __init__ sets
them, the given buffers enqueued, and stop = False as run() assigns on
entry. -/
def freshC (bufs : List Buffer) : CState :=
  { incoming := bufs, outgoing := [], overruns := 0, in_overrun := false,
    frames := 0, discarded_frames := 0, log_interval := 5,
    fpsState := { fps := 0, frame := 0, prev := 0 }, stop := some false }

/-- One frame arriving on the wire, as seen after the header section is
read: its header set, its body stream, and the clock reading for it. -/
structure FrameIn where
  hdr : Headers
  body : ByteStream
  now : Nat
deriving DecidableEq, Repr

/-- Outcome of one iteration of the process_stream loop: the updated
state and sequence counter, or the state at the point where an exception
escaped the iteration. -/
inductive StepOut where
  | ok (st : CState) (seq : Nat) (rest : ByteStream)
  | err (st : CState) (e : PyErr)
deriving DecidableEq, Repr

/-- The client state carried by either outcome. -/
def StepOut.state : StepOut → CState
  | .ok st _ _ => st
  | .err st _ => st

/-- The try/except at the top of each process_stream iteration
(src/mjpeg/client.py lines 107-118): pop a buffer from the right of the
incoming deque and clear the overrun flag, or on IndexError leave no
buffer and enter overrun, counting it only on the transition. -/
def acquire_phase (st : CState) : Option Buffer × CState :=
  match st.incoming.getLast? with
  | some b => (some b, { st with incoming := st.incoming.dropLast, in_overrun := false })
  | none =>
    (none,
      if st.in_overrun then st
      else { st with overruns := st.overruns + 1, in_overrun := true })

/-- The rest of a process_stream iteration (src/mjpeg/client.py lines
120-132): read the frame with skip_big left at its default True; on
success bump the fps estimate and the total frame counter, then either
stamp and publish the buffer (note the source writes buf.seq, not the
documented buf.sequence) or count the frame discarded, and advance the
local sequence counter. -/
def frame_phase (pop : Option Buffer) (st1 : CState) (seq : Nat) (f : FrameIn) : StepOut :=
  let mem : Option (List Nat) := pop.map (fun b => b.data)
  let length : Nat := match pop with | some b => b.length | none => 0
  match read_mjpeg_frame_body f.hdr f.body mem length true f.now with
  | .error e => .err st1 e
  | .ok ((ts, clen), mem2, s2) =>
    let st2 := { st1 with
      fpsState := update_fps st1.log_interval st1.fpsState f.now
      frames := st1.frames + 1 }
    match pop with
    | some b =>
      if (length : Int) ≥ clen then
        let b2 : Buffer := { b with
          timestamp := ts
          used := clen
          seq := some seq
          data := mem2.getD b.data }
        .ok { st2 with outgoing := st2.outgoing ++ [b2] } (seq + 1) s2
      else .ok { st2 with discarded_frames := st2.discarded_frames + 1 } (seq + 1) s2
    | none => .ok { st2 with discarded_frames := st2.discarded_frames + 1 } (seq + 1) s2

/-- One iteration of MJPEGClient.process_stream (src/mjpeg/client.py
lines 106-132): the buffer-acquisition phase followed by the
read-and-publish phase.  The loop contains no check of self.stop. -/
def process_one (st : CState) (seq : Nat) (f : FrameIn) : StepOut :=
  frame_phase (acquire_phase st).1 (acquire_phase st).2 seq f

/-- Run the process_stream loop over a list of arriving frames, stopping
at the first escaping exception.  Besides the final state and sequence
counter it returns the acquisition trace (whether each started iteration
found a free buffer) and whether all frames were processed. -/
def run_stream (st : CState) (seq : Nat) : List FrameIn → CState × Nat × List Bool × Bool
  | [] => (st, seq, [], true)
  | f :: rest =>
    let acquired := st.incoming.getLast?.isSome
    match process_one st seq f with
    | .ok st2 seq2 _ =>
      match run_stream st2 seq2 rest with
      | (stf, seqf, tr, okf) => (stf, seqf, acquired :: tr, okf)
    | .err st2 _ => (st2, seq, [acquired], false)

/-- Number of times the overrun counter is bumped along an acquisition
trace: once at each transition into a buffer-less iteration from a state
that is not already in overrun. -/
def overrun_incrs : Bool → List Bool → Nat
  | _, [] => 0
  | inOv, acq :: rest =>
    if acq then overrun_incrs false rest
    else (if inOv then 0 else 1) + overrun_incrs true rest

/-- The mutable state of AioMJPEGClient that its loops touch.  The
outgoing queue holds buffers or the None close sentinel. -/
structure AioState where
  incoming : List Buffer
  outgoing : List (Option Buffer)
  overruns : Nat
  in_overrun : Bool
  frames : Nat
  discarded_frames : Nat
  log_interval : Nat
  fpsState : FpsState
  stop_loops : Bool
deriving DecidableEq, Repr

/-- One multipart part as the aio loop sees it: the Content-Length that
aiohttp parsed (stream._length), the part headers, the body stream and
the clock reading.  reader.next() returning None is modelled by feeding
an Option of this. -/
structure AioFrame where
  clen : Int
  hdr : Headers
  body : ByteStream
  now : Nat
deriving DecidableEq, Repr

/-- Outcome of one iteration of AioMJPEGClient.process_stream: the loop
guard may observe _stop_loops and leave, otherwise the iteration ends in
an updated state or in an escaping exception. -/
inductive AioStepOut where
  | exit (st : AioState)
  | ok (st : AioState) (seq : Nat)
  | err (st : AioState) (e : PyErr)
deriving DecidableEq, Repr

/-- One iteration of AioMJPEGClient.process_stream (src/mjpeg/aioclient.py
lines 254-290).  Unlike the threaded loop, the while condition observes
_stop_loops before any frame work; the mid-iteration re-check after
awaiting reader.next() reads the same flag, which cannot change within
one modelled step.  part = none models reader.next() returning None
(EOFError); otherwise the frame is read with aread_mjpeg_frame, skip_big
defaulting to True, and published (again via the buf.seq attribute) or
discarded. -/
def aio_process_one (st : AioState) (seq : Nat) (part : Option AioFrame) : AioStepOut :=
  if st.stop_loops then .exit st
  else
    let pop := st.incoming.getLast?
    let st1 : AioState :=
      match pop with
      | some _ => { st with incoming := st.incoming.dropLast, in_overrun := false }
      | none =>
        if st.in_overrun then st
        else { st with overruns := st.overruns + 1, in_overrun := true }
    match part with
    | none => .err st1 (.eofError "End of stream reached")
    | some f =>
      let mem : Option (List Nat) := pop.map (fun b => b.data)
      let length : Nat := match pop with | some b => b.length | none => 0
      match aread_mjpeg_frame f.clen f.hdr f.body mem length true f.now with
      | .error e => .err st1 e
      | .ok ((ts, clen), mem2, _) =>
        let st2 := { st1 with
          fpsState := update_fps st1.log_interval st1.fpsState f.now
          frames := st1.frames + 1 }
        match pop with
        | some b =>
          if (length : Int) ≥ clen then
            let b2 : Buffer := { b with
              timestamp := ts
              used := clen
              seq := some seq
              data := mem2.getD b.data }
            .ok { st2 with outgoing := st2.outgoing ++ [some b2] } (seq + 1)
          else .ok { st2 with discarded_frames := st2.discarded_frames + 1 } (seq + 1)
        | none => .ok { st2 with discarded_frames := st2.discarded_frames + 1 } (seq + 1)

/-- AioMJPEGClient.close (src/mjpeg/aioclient.py lines 155-171): set
_stop_loops, cancel the run task, and in the finally block put exactly
one None sentinel on the outgoing queue. -/
def aio_close (st : AioState) : AioState :=
  { st with stop_loops := true, outgoing := st.outgoing ++ [none] }

/-- The AioMJPEGClient.run supervision loop (src/mjpeg/aioclient.py lines
319-339) in the run where every connection attempt raises immediately:
while the loop guard does not observe a stop, attempt a connection (it
fails), then, unless the reconnect counter has reached the limit, sleep
one reconnect_interval and count a reconnect.  Returns the number of
connection attempts, the number of reconnect waits, and the final
reconnect counter.  Fuel bounds the loop; limit + 1 - reconnects is
enough because every pass advances the counter. -/
def run_allfail_go : Nat → Bool → Nat → Nat → Nat × Nat × Nat
  | _, true, _, r => (0, 0, r)
  | 0, false, _, r => (1, 0, r)
  | fuel + 1, false, l, r =>
    if l ≤ r then (1, 0, r)
    else
      match run_allfail_go fuel false l (r + 1) with
      | (a, w, rf) => (a + 1, w + 1, rf)

/-- The run loop with all attempts failing, started with the given stop
flag, reconnect limit and reconnect counter. -/
def run_allfail (stop_loops : Bool) (limit : Nat) (reconnects : Nat) : Nat × Nat × Nat :=
  run_allfail_go (limit + 1 - reconnects) stop_loops limit reconnects

/-- The observable outcome of AioMJPEGClient.run when every attempt
fails: attempt and wait counts from the loop, and is_open, which the
finally block always leaves False. -/
structure RunOutcome where
  attempts : Nat
  waits : Nat
  reconnects : Nat
  is_open : Bool
deriving DecidableEq, Repr

/-- AioMJPEGClient.run with reconnect limit configured, every connection
attempt failing and no stop requested. -/
def aio_run_allfail (limit : Nat) : RunOutcome :=
  match run_allfail false limit 0 with
  | (a, w, r) => { attempts := a, waits := w, reconnects := r, is_open := false }

/-- The stop instance-attribute slot of a threaded client, for the
Python attribute-lookup semantics of MJPEGClient.stop: an attribute named
stop in the instance dict shadows the class method of the same name. -/
structure StopSlot where
  stopAttr : Option Bool
deriving DecidableEq, Repr

/-- Result of evaluating self.stop() on an instance. -/
inductive CallStopResult where
  | ok (st : StopSlot)
  | typeErr
deriving DecidableEq, Repr

/-- A call self.stop(): Python resolves the name on the instance first,
so once the instance dict holds a boolean, calling it raises TypeError;
only when no instance attribute exists does the class method
MJPEGClient.stop (src/mjpeg/client.py lines 71-72) run, and its body
self.stop = True creates exactly that shadowing boolean. -/
def call_stop (st : StopSlot) : CallStopResult :=
  match st.stopAttr with
  | some _ => .typeErr
  | none => .ok { stopAttr := some true }

/-- The first statement of MJPEGClient.run (src/mjpeg/client.py line
145): self.stop = False, which writes the shadowing instance
attribute. -/
def run_first_stmt (_st : StopSlot) : StopSlot :=
  { stopAttr := some false }

/-- The operations that touch the stop slot over an instance lifetime. -/
inductive ClientOp where
  | callStop
  | runFirst
deriving DecidableEq, Repr

/-- Execute a sequence of operations on the stop slot, counting the
stop() calls that succeed (do not raise TypeError). -/
def exec_ops : StopSlot → List ClientOp → StopSlot × Nat
  | st, [] => (st, 0)
  | st, .runFirst :: rest => exec_ops (run_first_stmt st) rest
  | st, .callStop :: rest =>
    match call_stop st with
    | .ok st2 =>
      match exec_ops st2 rest with
      | (stf, n) => (stf, n + 1)
    | .typeErr => exec_ops st rest

/-- A well-formed frame of three body bytes used by the concrete runs. -/
def frame3 : FrameIn :=
  { hdr := [("content-length", "3"), ("content-type", "image/jpeg")],
    body := { data := [1, 2, 3], sched := [] }, now := 0 }


/-- Header set whose Content-Type carries a ;-parameter suffix. -/
def hdrSemi : Headers := [("content-type", "image/jpeg; x"), ("content-length", "3")]

/-- Header set with no Content-Type at all. -/
def hdrNoCT : Headers := [("content-length", "3")]

/-- Header set announcing a five-byte frame. -/
def hdr5 : Headers := [("content-length", "5"), ("content-type", "image/jpeg")]

/-- Header set announcing the zero-length end-of-stream frame. -/
def hdrZero : Headers := [("content-length", "0")]

/-- A threaded client on which a stop has notionally been requested (the
stop attribute holds True). -/
def stoppedC : CState := { freshC [Buffer.init 10] with stop := some true }

/-- An asynchronous client state on which close() has set _stop_loops. -/
def aioStopped : AioState :=
  { incoming := [], outgoing := [], overruns := 0, in_overrun := false,
    frames := 0, discarded_frames := 0, log_interval := 5,
    fpsState := { fps := 0, frame := 0, prev := 0 }, stop_loops := true }

/-- Per-frame bookkeeping demanded of one loop iteration, relative to the
state it started from: a completed iteration counts its frame exactly
once and then either publishes it or discards it, never both and never
neither; an aborted iteration touches none of these counters. -/
def frame_accounting (st : CState) (out : StepOut) : Prop :=
  match out with
  | .ok st2 _ _ =>
    st2.frames = st.frames + 1
    ∧ ((st2.outgoing.length = st.outgoing.length + 1
          ∧ st2.discarded_frames = st.discarded_frames)
        ∨ (st2.outgoing.length = st.outgoing.length
            ∧ st2.discarded_frames = st.discarded_frames + 1))
  | .err st2 _ =>
    st2.frames = st.frames ∧ st2.outgoing.length = st.outgoing.length
    ∧ st2.discarded_frames = st.discarded_frames

theorem acquire_fields (st : CState) :
    ((acquire_phase st).1.isSome = st.incoming.getLast?.isSome)
  ∧ ((acquire_phase st).2.in_overrun = !st.incoming.getLast?.isSome)
  ∧ ((acquire_phase st).2.overruns
      = st.overruns
        + (if st.incoming.getLast?.isSome = false ∧ st.in_overrun = false then 1 else 0))
  ∧ ((acquire_phase st).2.frames = st.frames)
  ∧ ((acquire_phase st).2.discarded_frames = st.discarded_frames)
  ∧ ((acquire_phase st).2.outgoing = st.outgoing) := by
  unfold acquire_phase
  cases hpop : st.incoming.getLast? <;> cases hio : st.in_overrun <;> simp [hio]

theorem frame_phase_fields (pop : Option Buffer) (st1 : CState) (seq : Nat) (f : FrameIn) :
    ((frame_phase pop st1 seq f).state.overruns = st1.overruns)
  ∧ ((frame_phase pop st1 seq f).state.in_overrun = st1.in_overrun) := by
  unfold frame_phase
  cases pop <;> dsimp only [Option.map] <;> (repeat' split) <;> simp [StepOut.state]

theorem frame_phase_counts (pop : Option Buffer) (st1 : CState) (seq : Nat) (f : FrameIn) :
    (∀ st2 seq2 s2, frame_phase pop st1 seq f = .ok st2 seq2 s2 →
      st2.frames = st1.frames + 1
      ∧ ((st2.outgoing.length = st1.outgoing.length + 1
            ∧ st2.discarded_frames = st1.discarded_frames)
          ∨ (st2.outgoing.length = st1.outgoing.length
              ∧ st2.discarded_frames = st1.discarded_frames + 1)))
  ∧ (∀ st2 e, frame_phase pop st1 seq f = .err st2 e → st2 = st1) := by
  constructor
  · intro st2 seq2 s2 h
    revert h
    unfold frame_phase
    cases pop <;> dsimp only [Option.map] <;> (repeat' split) <;> intro h <;>
      cases h <;> simp
  · intro st2 e h
    revert h
    unfold frame_phase
    cases pop <;> dsimp only [Option.map] <;> (repeat' split) <;> intro h <;>
      cases h <;> simp

theorem process_one_overrun (st : CState) (seq : Nat) (f : FrameIn) :
    ((process_one st seq f).state.in_overrun = !st.incoming.getLast?.isSome)
  ∧ ((process_one st seq f).state.overruns
      = st.overruns
        + (if st.incoming.getLast?.isSome = false ∧ st.in_overrun = false then 1 else 0)) := by
  have hacq := acquire_fields st
  have hfp := frame_phase_fields (acquire_phase st).1 (acquire_phase st).2 seq f
  unfold process_one
  constructor
  · rw [hfp.2, hacq.2.1]
  · rw [hfp.1, hacq.2.2.1]

theorem process_one_counts (st : CState) (seq : Nat) (f : FrameIn) :
    (process_one st seq f).state.frames + st.discarded_frames + st.outgoing.length
      = st.frames + (process_one st seq f).state.discarded_frames
          + (process_one st seq f).state.outgoing.length := by
  have hacq := acquire_fields st
  have hfp := frame_phase_counts (acquire_phase st).1 (acquire_phase st).2 seq f
  unfold process_one
  cases hstep : frame_phase (acquire_phase st).1 (acquire_phase st).2 seq f with
  | ok st2 seq2 s2 =>
    have h := hfp.1 st2 seq2 s2 hstep
    simp only [StepOut.state]
    rw [hacq.2.2.2.1, hacq.2.2.2.2.1, hacq.2.2.2.2.2] at h
    omega
  | err st2 e =>
    have h := hfp.2 st2 e hstep
    subst h
    simp only [StepOut.state]
    rw [hacq.2.2.2.1, hacq.2.2.2.2.1, hacq.2.2.2.2.2]

theorem run_stream_counts (fs : List FrameIn) : ∀ (st : CState) (seq : Nat),
    (run_stream st seq fs).1.frames + st.discarded_frames + st.outgoing.length
      = st.frames + (run_stream st seq fs).1.discarded_frames
          + (run_stream st seq fs).1.outgoing.length := by
  induction fs with
  | nil => intro st seq; simp [run_stream]
  | cons f rest ih =>
    intro st seq
    have hstep := process_one_counts st seq f
    cases hp : process_one st seq f with
    | ok st2 seq2 s2 =>
      rcases hres : run_stream st2 seq2 rest with ⟨stf, seqf, tr, okf⟩
      have hih := ih st2 seq2
      rw [hres] at hih
      rw [hp] at hstep
      simp only [StepOut.state] at hstep
      simp only [run_stream, hp, hres]
      simp only at hih ⊢
      omega
    | err st2 e =>
      rw [hp] at hstep
      simp only [StepOut.state] at hstep
      simp only [run_stream, hp]
      omega

theorem run_stream_overruns (fs : List FrameIn) : ∀ (st : CState) (seq : Nat),
    (run_stream st seq fs).1.overruns
      = st.overruns + overrun_incrs st.in_overrun (run_stream st seq fs).2.2.1 := by
  induction fs with
  | nil => intro st seq; simp [run_stream, overrun_incrs]
  | cons f rest ih =>
    intro st seq
    have hover := process_one_overrun st seq f
    cases hp : process_one st seq f with
    | ok st2 seq2 s2 =>
      rcases hres : run_stream st2 seq2 rest with ⟨stf, seqf, tr, okf⟩
      have hih := ih st2 seq2
      rw [hres] at hih
      rw [hp] at hover
      simp only [StepOut.state] at hover
      simp only [run_stream, hp, hres]
      simp only at hih ⊢
      rw [hih, hover.1, hover.2]
      cases hacq : st.incoming.getLast?.isSome <;> cases hio : st.in_overrun <;>
        (simp [overrun_incrs]; try omega)
    | err st2 e =>
      rw [hp] at hover
      simp only [StepOut.state] at hover
      simp only [run_stream, hp]
      rw [hover.2]
      cases hacq : st.incoming.getLast?.isSome <;> cases hio : st.in_overrun <;>
        simp [overrun_incrs]

theorem skip_data_go_ok : ∀ (fuel left : Nat) (s : ByteStream),
    left ≤ fuel → (∀ x ∈ s.sched, 0 < x) → left ≤ s.data.length →
    ∃ sch2, skip_data_go fuel s left = .ok ⟨s.data.drop left, sch2⟩ := by
  intro fuel
  induction fuel with
  | zero =>
    intro left s hle _ _
    match left, hle with
    | 0, _ => exact ⟨s.sched, by simp [skip_data_go]⟩
  | succ n ih =>
    intro left s hle hsched hdata
    match left with
    | 0 => exact ⟨s.sched, by simp [skip_data_go]⟩
    | left + 1 =>
      have hhead : 0 < s.sched.headD (left + 1) := by
        cases hs : s.sched with
        | nil => simp
        | cons x xs => exact hsched x (by simp [hs])
      have hw : 0 < min (left + 1) (s.sched.headD (left + 1)) := by omega
      have hwle : min (left + 1) (s.sched.headD (left + 1)) ≤ left + 1 :=
        Nat.min_le_left _ _
      have hlen1 : (sread s (left + 1)).1.length
          = min (left + 1) (s.sched.headD (left + 1)) := by
        simp only [sread, List.length_take]
        omega
      have hs2 : (sread s (left + 1)).2
          = ⟨s.data.drop (min (left + 1) (s.sched.headD (left + 1))), s.sched.tail⟩ := rfl
      obtain ⟨sch2, hrec⟩ := ih (left + 1 - min (left + 1) (s.sched.headD (left + 1)))
        ⟨s.data.drop (min (left + 1) (s.sched.headD (left + 1))), s.sched.tail⟩
        (by omega)
        (fun x hx => hsched x (List.mem_of_mem_tail hx))
        (by simp only [List.length_drop]; omega)
      refine ⟨sch2, ?_⟩
      rw [skip_data_go, hlen1, hs2, if_neg (by omega), hrec]
      have harith : min (left + 1) (s.sched.headD (left + 1))
          + (left + 1 - min (left + 1) (s.sched.headD (left + 1))) = left + 1 := by omega
      rw [List.drop_drop, harith]

theorem exec_ops_shadowed (ops : List ClientOp) :
    ∀ b : Bool, (exec_ops ⟨some b⟩ ops).2 = 0 := by
  induction ops with
  | nil => intro b; rfl
  | cons op rest ih =>
    intro b
    cases op with
    | runFirst => simpa [exec_ops, run_first_stmt] using ih false
    | callStop => simpa [exec_ops, call_stop] using ih b

/-- C1: the claim (matching the Buffer docstring and the spec) is that
each published buffer carries the per-stream sequence number in its
sequence attribute, strictly increasing from 0 across the buffers one
connection delivers.  The code instead writes the ad-hoc attribute seq
(src/mjpeg/client.py line 127), so with two ample buffers and two valid
frames both published buffers still have sequence = 0 - not strictly
increasing - while the counter values land in the undocumented seq
attribute. -/
theorem c1_sequence_attribute_never_stamped :
    ((run_stream (freshC [Buffer.init 10, Buffer.init 10]) 0 [frame3, frame3]).1.outgoing.map
        Buffer.sequence = [0, 0])
  ∧ ¬ List.Chain' (fun a b => a < b)
      ((run_stream (freshC [Buffer.init 10, Buffer.init 10]) 0 [frame3, frame3]).1.outgoing.map
        Buffer.sequence)
  ∧ ((run_stream (freshC [Buffer.init 10, Buffer.init 10]) 0 [frame3, frame3]).1.outgoing.map
        Buffer.seq = [some 0, some 1]) := by
  refine ⟨by decide, ?_, by decide⟩
  intro h
  have h2 : List.Chain' (fun a b => a < b) [0, 0] := by
    have he : (run_stream (freshC [Buffer.init 10, Buffer.init 10]) 0
        [frame3, frame3]).1.outgoing.map Buffer.sequence = [0, 0] := by decide
    rw [he] at h
    exact h
  simp [List.chain'_cons] at h2

/-- C2: along any run of the frame loop the overrun counter grows by
exactly the number of maximal contiguous buffer-less runs of iterations
(overrun_incrs), not by the number of such iterations; concretely, five
consecutive frames with no free buffer give overruns = 1 with
discarded_frames = 5, and after a buffer is acquired (clearing the
flag) a later buffer-less run increments the counter again (2 after the
pattern no-buffer run, acquire, no-buffer run). -/
theorem c2_overrun_once_per_contiguous_run :
    (∀ (fs : List FrameIn) (st : CState) (seq : Nat),
        (run_stream st seq fs).1.overruns
          = st.overruns + overrun_incrs st.in_overrun (run_stream st seq fs).2.2.1)
  ∧ ((run_stream (freshC []) 0 [frame3, frame3, frame3, frame3, frame3]).1.overruns = 1
      ∧ (run_stream (freshC []) 0 [frame3, frame3, frame3, frame3, frame3]).1.discarded_frames
          = 5)
  ∧ ((run_stream { (run_stream (freshC []) 0 [frame3, frame3]).1 with
        incoming := [Buffer.init 10] } 2 [frame3, frame3, frame3]).1.overruns = 2) := by
  exact ⟨fun fs st seq => run_stream_overruns fs st seq, by decide, by decide⟩

/-- C3: every complete iteration counts its frame exactly once and then
either publishes it or counts it discarded, never both and never neither
(frame_accounting); consequently over any run the growth of the total
frame counter equals the growth of discarded plus published, so from a
fresh client discarded_frames + outgoing length = frames at every
iteration boundary (concretely 3 = 2 + 1 after three frames against one
buffer, the buffer itself being lost to the pool after its first use). -/
theorem c3_every_frame_accounted :
    (∀ (st : CState) (seq : Nat) (f : FrameIn), frame_accounting st (process_one st seq f))
  ∧ (∀ (fs : List FrameIn) (st : CState) (seq : Nat),
      (run_stream st seq fs).1.frames + st.discarded_frames + st.outgoing.length
        = st.frames + (run_stream st seq fs).1.discarded_frames
            + (run_stream st seq fs).1.outgoing.length)
  ∧ ((run_stream (freshC [Buffer.init 10]) 0 [frame3, frame3, frame3]).1.frames = 3
      ∧ (run_stream (freshC [Buffer.init 10]) 0 [frame3, frame3, frame3]).1.discarded_frames
          = 2
      ∧ (run_stream (freshC [Buffer.init 10]) 0 [frame3, frame3, frame3]).1.outgoing.length
          = 1) := by
  refine ⟨?_, fun fs st seq => run_stream_counts fs st seq, by decide⟩
  intro st seq f
  have hacq := acquire_fields st
  have hfp := frame_phase_counts (acquire_phase st).1 (acquire_phase st).2 seq f
  unfold frame_accounting process_one
  cases hstep : frame_phase (acquire_phase st).1 (acquire_phase st).2 seq f with
  | ok st2 seq2 s2 =>
    have h := hfp.1 st2 seq2 s2 hstep
    rw [hacq.2.2.2.1, hacq.2.2.2.2.1, hacq.2.2.2.2.2] at h
    exact h
  | err st2 e =>
    have h := hfp.2 st2 e hstep
    subst h
    exact ⟨hacq.2.2.2.1, by rw [hacq.2.2.2.2.2], hacq.2.2.2.2.1⟩

/-- C4: with reconnect_limit = 3 and every connection attempt failing
immediately, the aio run loop makes 4 connection attempts in total (3 of
them reconnects), sleeps the reconnect interval exactly once before each
reconnect, ends with the reconnect counter at the limit, and leaves the
client closed (is_open False) with no further attempts. -/
theorem c4_reconnect_limit_three :
    aio_run_allfail 3 = { attempts := 4, waits := 3, reconnects := 3, is_open := false }
  ∧ run_allfail false 3 0 = (4, 3, 3) := by
  decide

/-- C5 counterexample: the claim says a negative Content-Length string
must raise a framing error, but parse_content_length feeds the value to
int() and only catches ValueError and TypeError, so "-5" is accepted and
the negative length returned. -/
theorem c5_counterexample_negative_accepted :
    parse_content_length [("content-length", "-5")] = .ok (-5) ∧ (-5 : Int) < 0 := by
  decide

/-- C5 as amended: parse_content_length raises ProtoError exactly when
the content-length header is absent or its first value is not an integer
in the sense of Python int() (sign allowed); any value int() accepts,
negative ones included, is returned unchanged. -/
theorem c5_amended_error_iff_unparsable (h : Headers) :
    ((parse_content_length h = .error (.protoError "Invalid or missing Content-Length"))
      ↔ (hget1 h "content-length" = none
          ∨ ∃ v, hget1 h "content-length" = some v ∧ pyInt? v = none))
  ∧ (∀ n : Int, parse_content_length h = .ok n
      ↔ ∃ v, hget1 h "content-length" = some v ∧ pyInt? v = some n) := by
  constructor
  · cases hg : hget1 h "content-length" with
    | none => simp [parse_content_length, hg]
    | some v =>
      cases hp : pyInt? v with
      | none => simp [parse_content_length, hg, hp]
      | some n => simp [parse_content_length, hg, hp]
  · intro n
    cases hg : hget1 h "content-length" with
    | none => simp [parse_content_length, hg]
    | some v =>
      cases hp : pyInt? v with
      | none => simp [parse_content_length, hg, hp]
      | some m => simp [parse_content_length, hg, hp, eq_comm]

/-- C6: when Content-Length exceeds the buffer capacity and oversize
tolerance is on, the reader consumes exactly Content-Length body bytes
from the stream (any transport chunking with nonzero reads), leaves the
destination buffer bytes untouched, and returns the timestamp with the
content length; with tolerance off it raises the oversize ProtoError
whose result does not depend on the stream at all, i.e. no body byte is
consumed.  (The buffer object of the client keeps its used field
untouched on this path as well, since only the publish branch of
process_stream assigns used.) -/
theorem c6_oversize_skip_or_error (hdr : Headers) (clen : Int) (b : List Nat)
    (length : Nat) (s : ByteStream) (now : Nat)
    (hcl : parse_content_length hdr = .ok clen)
    (hbig : (length : Int) < clen)
    (hct : check_content_type hdr "image/jpeg" = .ok true)
    (hsched : ∀ x ∈ s.sched, 0 < x)
    (hdata : clen.toNat ≤ s.data.length) :
    (∃ sch2, read_mjpeg_frame_body hdr s (some b) length true now
        = .ok ((now, clen), some b, ⟨s.data.drop clen.toNat, sch2⟩))
  ∧ (∀ s1 : ByteStream, read_mjpeg_frame_body hdr s1 (some b) length false now
        = .error (.protoError ("Received chunk too big: " ++ toString clen))) := by
  have hlen0 : (0 : Int) ≤ (length : Int) := Int.ofNat_nonneg length
  constructor
  · obtain ⟨sch2, hskip⟩ := skip_data_go_ok clen.toNat clen.toNat s le_rfl hsched hdata
    refine ⟨sch2, ?_⟩
    have h1 : ¬(clen = 0) := by omega
    have h2 : ¬(clen > (length : Int) ∧ true = false) := by simp
    have h3 : ¬((length : Int) ≥ clen) := by omega
    simp only [read_mjpeg_frame_body, hcl, if_neg h1, if_neg h2, hct, if_neg h3,
      skip_data, hskip]
  · intro s1
    have h1 : ¬(clen = 0) := by omega
    have h2 : clen > (length : Int) ∧ True := ⟨by omega, trivial⟩
    simp only [read_mjpeg_frame_body, hcl, if_neg h1, if_pos h2]

/-- C6 witness: a five-byte frame against a three-byte buffer. -/
theorem c6_witness :
    (∃ sch2, read_mjpeg_frame_body hdr5 ⟨[1, 2, 3, 4, 5], []⟩ (some [9, 9, 9]) 3 true 0
        = .ok ((0, 5), some [9, 9, 9], ⟨[1, 2, 3, 4, 5].drop (5 : Int).toNat, sch2⟩))
  ∧ (∀ s1 : ByteStream, read_mjpeg_frame_body hdr5 s1 (some [9, 9, 9]) 3 false 0
        = .error (.protoError ("Received chunk too big: " ++ toString (5 : Int)))) := by
  exact c6_oversize_skip_or_error hdr5 5 [9, 9, 9] 3 ⟨[1, 2, 3, 4, 5], []⟩ 0
    (by decide) (by decide) (by decide) (by simp) (by decide)

/-- C7 counterexample: the claim requires, for every client, that no
further frame is processed once stop is requested; but the threaded
process_stream loop contains no stop check at all, so a client whose
stop attribute already holds True still reads, counts and publishes the
next frame. -/
theorem c7_counterexample_threaded_ignores_stop :
    stoppedC.stop = some true
  ∧ (run_stream stoppedC 0 [frame3]).1.frames = 1
  ∧ (run_stream stoppedC 0 [frame3]).1.outgoing.length = 1 := by
  decide

/-- C7 as amended: only the asynchronous client observes a stop request
before each frame iteration (its loop guard leaves the state untouched
once _stop_loops is set) and before each connection attempt (the run
loop makes zero attempts under a set flag), and each close() call
appends the None close sentinel to the outgoing queue exactly once; the
threaded client checks stop only between connection attempts and
delivers no sentinel. -/
theorem c7_amended_async_observes_stop :
    (∀ (st : AioState) (seq : Nat) (part : Option AioFrame),
        st.stop_loops = true → aio_process_one st seq part = .exit st)
  ∧ (∀ (limit r : Nat), run_allfail true limit r = (0, 0, r))
  ∧ (∀ st : AioState, (aio_close st).outgoing = st.outgoing ++ [none]
        ∧ (aio_close st).stop_loops = true) := by
  refine ⟨?_, ?_, ?_⟩
  · intro st seq part h
    simp [aio_process_one, h]
  · intro limit r
    cases h : limit + 1 - r <;> simp [run_allfail, run_allfail_go, h]
  · intro st
    exact ⟨rfl, rfl⟩

/-- C7 witness: the amended facts at a concrete stopped client. -/
theorem c7_witness :
    aio_process_one aioStopped 0 none = .exit aioStopped
  ∧ run_allfail true 3 0 = (0, 0, 0)
  ∧ (aio_close aioStopped).outgoing = [none] := by
  refine ⟨c7_amended_async_observes_stop.1 aioStopped 0 none rfl,
    c7_amended_async_observes_stop.2.1 3 0, ?_⟩
  have h := (c7_amended_async_observes_stop.2.2 aioStopped).1
  simpa using h

/-- C8 counterexample: the claim says that when the window fires the
window start slides forward by exactly log_interval; the code assigns
self._prev = self._cur instead, so with log_interval 5, prev 0 and the
next frame observed at time 7 the new window start is 7, not 0 + 5. -/
theorem c8_counterexample_window_jumps_to_now :
    update_fps 5 { fps := 0, frame := 0, prev := 0 } 7
      = { fps := 0, frame := 0, prev := 7 }
  ∧ (7 : Nat) ≠ 0 + 5 := by
  decide

/-- C8 as amended: when the elapsed window fires (now has reached
prev + log_interval), fps becomes the window frame count divided by
log_interval with integer truncation, the frame counter resets to 0,
and the window start is set to the current integer time now (not
advanced by exactly log_interval); otherwise only the frame counter is
bumped. -/
theorem c8_amended_fps_window (li : Nat) (st : FpsState) (now : Nat) :
    (st.prev + li ≤ now →
      update_fps li st now = { fps := (st.frame + 1) / li, frame := 0, prev := now })
  ∧ (¬ st.prev + li ≤ now →
      update_fps li st now = { st with frame := st.frame + 1 }) := by
  constructor
  · intro h
    simp [update_fps, h]
  · intro h
    simp [update_fps, h]

/-- C8 witness: 30 frames inside a one-second window give fps 30 at the
window boundary, with the counter reset. -/
theorem c8_witness :
    update_fps 1 { fps := 0, frame := 29, prev := 0 } 1
      = { fps := 30, frame := 0, prev := 1 } := by
  exact (c8_amended_fps_window 1 { fps := 0, frame := 29, prev := 0 } 1).1 (by decide)

/-- C9 counterexample: the claim says both frame readers strip the
;-delimited parameter suffix before comparing the Content-Type; on a
frame whose Content-Type is "image/jpeg; x" the threaded reader strips
and accepts the frame while the asynchronous reader compares the raw
value and rejects it with a wrong-content-type ProtoError. -/
theorem c9_counterexample_param_suffix :
    read_mjpeg_frame_body hdrSemi ⟨[1, 2, 3], []⟩ (some [0, 0, 0, 0]) 4 true 0
      = .ok ((0, 3), some [1, 2, 3, 0], ⟨[], []⟩)
  ∧ aread_mjpeg_frame 3 hdrSemi ⟨[1, 2, 3], []⟩ (some [0, 0, 0, 0]) 4 true 0
      = .error (.protoError "Wrong Content-Type: image/jpeg; x") := by
  decide

/-- C9 as amended: the two readers agree on the length-driven checks -
a Content-Length of 0 is the clean end-of-stream in both, and an
oversize frame with tolerance off is the same ProtoError in both - but
their Content-Type handling differs: the threaded reader strips a
;-parameter suffix and turns a missing Content-Type into a framing
ProtoError, while the asynchronous reader compares the raw value
(rejecting any parameterised type, as the counterexample shows) and
raises a KeyError, not a framing error, when the header is missing. -/
theorem c9_amended_readers_diverge :
    (∀ (hdr : Headers) (s : ByteStream) (buf : Option (List Nat)) (len : Nat)
        (sb : Bool) (now : Nat),
      parse_content_length hdr = .ok 0 →
        read_mjpeg_frame_body hdr s buf len sb now
            = .error (.eofError "End of stream reached")
        ∧ aread_mjpeg_frame 0 hdr s buf len sb now
            = .error (.eofError "End of stream reached"))
  ∧ (∀ (hdr : Headers) (clen : Int) (s : ByteStream) (buf : Option (List Nat))
        (len : Nat) (now : Nat),
      parse_content_length hdr = .ok clen → (len : Int) < clen →
        read_mjpeg_frame_body hdr s buf len false now
            = .error (.protoError ("Received chunk too big: " ++ toString clen))
        ∧ aread_mjpeg_frame clen hdr s buf len false now
            = .error (.protoError ("Received chunk too big: " ++ toString clen)))
  ∧ (read_mjpeg_frame_body hdrNoCT ⟨[1, 2, 3], []⟩ (some [0, 0, 0, 0]) 4 true 0
        = .error (.protoError "Missing Content-Type header")
      ∧ aread_mjpeg_frame 3 hdrNoCT ⟨[1, 2, 3], []⟩ (some [0, 0, 0, 0]) 4 true 0
        = .error .keyError) := by
  refine ⟨?_, ?_, by decide⟩
  · intro hdr s buf len sb now hcl
    constructor
    · simp [read_mjpeg_frame_body, hcl]
    · simp [aread_mjpeg_frame]
  · intro hdr clen s buf len now hcl hbig
    have h1 : ¬(clen = 0) := by
      have : (0 : Int) ≤ (len : Int) := Int.ofNat_nonneg len
      omega
    have h2 : clen > (len : Int) ∧ True := ⟨by omega, trivial⟩
    constructor
    · simp only [read_mjpeg_frame_body, hcl, if_neg h1, if_pos h2]
    · simp only [aread_mjpeg_frame, if_neg h1, if_pos h2]

/-- C9 witness: the zero-length end-of-stream frame is reported as the
same clean EOFError by both readers. -/
theorem c9_witness :
    read_mjpeg_frame_body hdrZero ⟨[], []⟩ none 0 true 0
      = .error (.eofError "End of stream reached")
  ∧ aread_mjpeg_frame 0 hdrZero ⟨[], []⟩ none 0 true 0
      = .error (.eofError "End of stream reached") := by
  exact c9_amended_readers_diverge.1 hdrZero ⟨[], []⟩ none 0 true 0 (by decide)

/-- C10: once MJPEGClient.run has executed its first statement
self.stop = False, the boolean instance attribute shadows the stop
method, so every call self.stop() raises TypeError (a bool is not
callable) and no stop ever succeeds afterwards; over any operation
sequence the public stop() succeeds at most once per instance, and a
success is possible only while no shadowing attribute exists, i.e. only
before the worker loop has started. -/
theorem c10_stop_method_shadowed :
    (∀ b : Bool, call_stop { stopAttr := some b } = .typeErr)
  ∧ (∀ st : StopSlot, (run_first_stmt st).stopAttr = some false)
  ∧ (∀ (st : StopSlot) (ops : List ClientOp), (exec_ops (run_first_stmt st) ops).2 = 0)
  ∧ (∀ ops : List ClientOp, (exec_ops { stopAttr := none } ops).2 ≤ 1) := by
  refine ⟨fun b => rfl, fun st => rfl, ?_, ?_⟩
  · intro st ops
    exact exec_ops_shadowed ops false
  · intro ops
    match ops with
    | [] => decide
    | .runFirst :: rest =>
      simpa [exec_ops, run_first_stmt] using
        Nat.le_of_eq (exec_ops_shadowed rest false) |>.trans (by omega)
    | .callStop :: rest =>
      have h := exec_ops_shadowed rest true
      simp [exec_ops, call_stop, h]
